import Mathlib

/-!
Shallow embedding of the WeightWise repository core: the relational data
model (src/shared/schema.ts), the two storage classes (src/unnamed/part_001,
both DatabaseStorage variants) and the HTTP route handlers
(src/server/routes.ts and the business-app routes in src/unnamed/part_001).

Tables are lists of rows; decimal columns are scaled integers; timestamps
are natural numbers; jsonb values are a small JSON inductive.  SQL UPDATE
and DELETE with a WHERE clause become a map or filter over the table, with
rowCount the number of matched rows (PostgreSQL reports the number of rows
processed by an UPDATE even when the new values equal the old ones).
-/

namespace WeightWise

/-- JSON-like values, used for request bodies and jsonb columns. -/
inductive JVal where
  | str (s : String)
  | int (n : Int)
  | rat (q : ℚ)
  | bool (b : Bool)
  | null
deriving DecidableEq, Repr

/-- A request body: a JSON object as a key-value list. -/
abbrev Body := List (String × JVal)

/-- users table (src/shared/schema.ts lines 29-37). -/
structure User where
  id : String
  email : Option String
  firstName : Option String
  lastName : Option String
  profileImageUrl : Option String
  createdAt : Nat
  updatedAt : Nat
deriving DecidableEq, Repr

/-- Modelled from the spec: the weight-app schema file is not under src
(only src/server/routes.ts and the weight DatabaseStorage refer to it).
Per spec section 3, a WeightEntry belongs to a user and holds a weight
value, unit, entry type (manual or photo), optional photo path and notes,
and a recorded timestamp.  The weight value is carried as a string, as the
route handlers treat it (weight entries are posted as strings such as
"150.5" and echoed back verbatim). -/
structure WeightEntry where
  id : Nat
  userId : String
  weight : String
  unit : String
  entryType : String
  photoPath : Option String
  notes : Option String
  recordedAt : Nat
deriving DecidableEq, Repr

/-- business_profiles table (src/shared/schema.ts lines 40-55).
The decimal-free columns keep their schema types; isActive defaults to
true at insert time. -/
structure BusinessProfile where
  id : Nat
  userId : String
  businessName : String
  category : Option String
  description : Option String
  location : Option String
  contactEmail : Option String
  contactPhone : Option String
  website : Option String
  socialLinks : Option JVal
  operatingHours : Option JVal
  isActive : Bool
  createdAt : Nat
  updatedAt : Nat
deriving DecidableEq, Repr

/-- customer_preferences table (src/shared/schema.ts lines 58-69);
preferredDistance (decimal 5,2) is a scaled integer. -/
structure CustomerPreferences where
  id : Nat
  userId : String
  preferredCategories : Option (List String)
  budgetRange : Option String
  location : Option String
  dietaryRestrictions : Option (List String)
  interests : Option (List String)
  preferredDistance : Option Int
  createdAt : Nat
  updatedAt : Nat
deriving DecidableEq, Repr

/-- business_reviews table (src/shared/schema.ts lines 72-81);
rating (decimal 2,1) is a scaled integer. -/
structure BusinessReview where
  id : Nat
  businessId : Nat
  customerId : String
  rating : Int
  reviewText : Option String
  visitDate : Option Nat
  isVerified : Bool
  createdAt : Nat
deriving DecidableEq, Repr

/-- recommendations table (src/shared/schema.ts lines 84-93);
score (decimal 3,2) is a scaled integer, isViewed defaults to false. -/
structure Recommendation where
  id : Nat
  userId : String
  businessId : Nat
  recommendationType : String
  score : Int
  reason : Option String
  isViewed : Bool
  createdAt : Nat
deriving DecidableEq, Repr

/-- activity_logs table (src/shared/schema.ts lines 96-103). -/
structure ActivityLog where
  id : Nat
  userId : String
  action : String
  description : Option String
  metadata : Option (List (String × JVal))
  createdAt : Nat
deriving DecidableEq, Repr

/-- The database: one list per table, in schema order. -/
structure DB where
  users : List User
  weightEntries : List WeightEntry
  businessProfiles : List BusinessProfile
  customerPreferences : List CustomerPreferences
  businessReviews : List BusinessReview
  recommendations : List Recommendation
  activityLogs : List ActivityLog
deriving DecidableEq, Repr

/-- A serial primary key value for a new row: one more than the largest id
in use (models a PostgreSQL serial column; the claims never depend on the
numeric value of a generated id). -/
def freshId (ids : List Nat) : Nat := ids.foldr max 0 + 1

/-- Insert shape accepted by createWeightEntry, after validation.
Modelled from the spec: the weight-app insert schema is not under src;
fields follow spec section 3 with entryType, photoPath and notes optional
(entryType defaults to "manual" per the spec section 8 example). -/
structure InsertWeightEntry where
  userId : String
  weight : String
  unit : String
  entryType : Option String
  photoPath : Option String
  notes : Option String
deriving DecidableEq, Repr

/-- DatabaseStorage.createWeightEntry (src/unnamed/part_001 lines 619-625):
inserts a row, returning it with generated id and defaulted columns. -/
def createWeightEntry (db : DB) (entry : InsertWeightEntry) (now : Nat) :
    DB × WeightEntry :=
  let row : WeightEntry :=
    { id := freshId (db.weightEntries.map WeightEntry.id)
      userId := entry.userId
      weight := entry.weight
      unit := entry.unit
      entryType := entry.entryType.getD "manual"
      photoPath := entry.photoPath
      notes := entry.notes
      recordedAt := now }
  ({ db with weightEntries := db.weightEntries ++ [row] }, row)

/-- DatabaseStorage.getWeightEntry (src/unnamed/part_001 lines 636-642):
SELECT scoped to both the id and the requesting userId, destructured to
the first row. -/
def getWeightEntry (db : DB) (id : Nat) (userId : String) :
    Option WeightEntry :=
  (db.weightEntries.filter fun e => e.id == id && e.userId == userId).head?

/-- DatabaseStorage.deleteWeightEntry (src/unnamed/part_001 lines 644-649):
DELETE scoped to the id and the requesting userId; the boolean is
rowCount greater than zero. -/
def deleteWeightEntry (db : DB) (id : Nat) (userId : String) : DB × Bool :=
  let matched := db.weightEntries.filter fun e => e.id == id && e.userId == userId
  let remaining := db.weightEntries.filter fun e => !(e.id == id && e.userId == userId)
  ({ db with weightEntries := remaining }, decide (0 < matched.length))

/-- Insert shape for activity logs (activityLogInsertSchema omits id and
createdAt, src/shared/schema.ts lines 128-131). -/
structure InsertActivityLog where
  userId : String
  action : String
  description : Option String
  metadata : Option (List (String × JVal))
deriving DecidableEq, Repr

/-- DatabaseStorage.createActivityLog (src/unnamed/part_001 lines 543-549):
inserts one audit row, returning it. -/
def createActivityLog (db : DB) (log : InsertActivityLog) (now : Nat) :
    DB × ActivityLog :=
  let row : ActivityLog :=
    { id := freshId (db.activityLogs.map ActivityLog.id)
      userId := log.userId
      action := log.action
      description := log.description
      metadata := log.metadata
      createdAt := now }
  ({ db with activityLogs := db.activityLogs ++ [row] }, row)

/-- Insert shape for business profiles: businessProfileInsertSchema
(src/shared/schema.ts lines 106-110) omits id, createdAt and updatedAt;
userId and businessName are required, the rest optional. -/
structure InsertBusinessProfile where
  userId : String
  businessName : String
  category : Option String
  description : Option String
  location : Option String
  contactEmail : Option String
  contactPhone : Option String
  website : Option String
  socialLinks : Option JVal
  operatingHours : Option JVal
  isActive : Option Bool
deriving DecidableEq, Repr

/-- DatabaseStorage.createBusinessProfile (src/unnamed/part_001 lines
393-399): inserts a row with generated id and column defaults. -/
def createBusinessProfile (db : DB) (profile : InsertBusinessProfile)
    (now : Nat) : DB × BusinessProfile :=
  let row : BusinessProfile :=
    { id := freshId (db.businessProfiles.map BusinessProfile.id)
      userId := profile.userId
      businessName := profile.businessName
      category := profile.category
      description := profile.description
      location := profile.location
      contactEmail := profile.contactEmail
      contactPhone := profile.contactPhone
      website := profile.website
      socialLinks := profile.socialLinks
      operatingHours := profile.operatingHours
      isActive := profile.isActive.getD true
      createdAt := now
      updatedAt := now }
  ({ db with businessProfiles := db.businessProfiles ++ [row] }, row)

/-- A Partial of InsertBusinessProfile, as produced by
businessProfileInsertSchema.partial(): every insert field optional. -/
structure BusinessProfilePatch where
  userId : Option String
  businessName : Option String
  category : Option (Option String)
  description : Option (Option String)
  location : Option (Option String)
  contactEmail : Option (Option String)
  contactPhone : Option (Option String)
  website : Option (Option String)
  socialLinks : Option (Option JVal)
  operatingHours : Option (Option JVal)
  isActive : Option Bool
deriving DecidableEq, Repr

/-- The SET clause of updateBusinessProfile: spread the patch over the row
and stamp updatedAt with the current time. -/
def applyPatch (p : BusinessProfile) (patch : BusinessProfilePatch)
    (now : Nat) : BusinessProfile :=
  { p with
      userId := patch.userId.getD p.userId
      businessName := patch.businessName.getD p.businessName
      category := patch.category.getD p.category
      description := patch.description.getD p.description
      location := patch.location.getD p.location
      contactEmail := patch.contactEmail.getD p.contactEmail
      contactPhone := patch.contactPhone.getD p.contactPhone
      website := patch.website.getD p.website
      socialLinks := patch.socialLinks.getD p.socialLinks
      operatingHours := patch.operatingHours.getD p.operatingHours
      isActive := patch.isActive.getD p.isActive
      updatedAt := now }

/-- DatabaseStorage.updateBusinessProfile (src/unnamed/part_001 lines
417-424): UPDATE scoped to the id and the owning userId, RETURNING the
updated rows destructured to the first. -/
def updateBusinessProfile (db : DB) (id : Nat) (userId : String)
    (patch : BusinessProfilePatch) (now : Nat) :
    DB × Option BusinessProfile :=
  let matched := fun (p : BusinessProfile) => p.id == id && p.userId == userId
  let updated := (db.businessProfiles.filter matched).map
    (fun p => applyPatch p patch now)
  ({ db with businessProfiles := (db.businessProfiles.map
      fun p => if matched p then applyPatch p patch now else p) },
   updated.head?)

/-- PostgreSQL LIKE with the pattern enclosed in percent signs, for a query
holding no wildcard characters: substring containment. -/
def likeContains (s pat : String) : Bool :=
  pat.isEmpty || decide (2 ≤ (s.splitOn pat).length)

/-- Ascending order on business names (ORDER BY business_name). -/
def nameLe (a b : BusinessProfile) : Prop :=
  a.businessName ≤ b.businessName

instance : DecidableRel nameLe := fun a b =>
  inferInstanceAs (Decidable (a.businessName ≤ b.businessName))

instance : IsTotal BusinessProfile nameLe :=
  ⟨fun a b => le_total a.businessName b.businessName⟩

instance : IsTrans BusinessProfile nameLe :=
  ⟨fun _ _ _ h1 h2 => le_trans h1 h2⟩

/-- DatabaseStorage.searchBusinesses (src/unnamed/part_001 lines 426-441):
WHERE isActive AND businessName LIKE the query, optionally also the
category, ORDER BY businessName.  The category filter is present exactly
when the route received a category parameter. -/
def searchBusinesses (db : DB) (query : String) (category : Option String) :
    List BusinessProfile :=
  let base := fun (b : BusinessProfile) =>
    b.isActive && likeContains b.businessName query
  let whereClause := fun (b : BusinessProfile) =>
    match category with
    | none => base b
    | some c => base b && b.category == some c
  List.insertionSort nameLe (db.businessProfiles.filter whereClause)

/-- Descending order on profile creation time (ORDER BY created_at DESC). -/
def createdDescBP (a b : BusinessProfile) : Prop :=
  b.createdAt ≤ a.createdAt

instance : DecidableRel createdDescBP := fun a b =>
  inferInstanceAs (Decidable (b.createdAt ≤ a.createdAt))

instance : IsTotal BusinessProfile createdDescBP :=
  ⟨fun x y => (le_total y.createdAt x.createdAt)⟩

instance : IsTrans BusinessProfile createdDescBP :=
  ⟨fun _ _ _ h1 h2 => le_trans h2 h1⟩

/-- DatabaseStorage.getAllBusinesses (src/unnamed/part_001 lines 443-450):
WHERE isActive, ORDER BY createdAt DESC, LIMIT the given count. -/
def getAllBusinesses (db : DB) (limit : Nat) : List BusinessProfile :=
  (List.insertionSort createdDescBP
    (db.businessProfiles.filter fun b => b.isActive)).take limit

/-- The ORDER BY of getUserRecommendations: score descending, ties broken
by createdAt descending. -/
def recOrder (a b : Recommendation × BusinessProfile) : Prop :=
  b.1.score < a.1.score ∨ (a.1.score = b.1.score ∧ b.1.createdAt ≤ a.1.createdAt)

instance : DecidableRel recOrder := fun a b =>
  inferInstanceAs (Decidable (b.1.score < a.1.score ∨
    (a.1.score = b.1.score ∧ b.1.createdAt ≤ a.1.createdAt)))

instance : IsTotal (Recommendation × BusinessProfile) recOrder := by
  constructor
  intro a b
  rcases lt_trichotomy a.1.score b.1.score with h | h | h
  · exact Or.inr (Or.inl h)
  · rcases le_total b.1.createdAt a.1.createdAt with h2 | h2
    · exact Or.inl (Or.inr ⟨h, h2⟩)
    · exact Or.inr (Or.inr ⟨h.symm, h2⟩)
  · exact Or.inl (Or.inl h)

instance : IsTrans (Recommendation × BusinessProfile) recOrder := by
  constructor
  intro a b c hab hbc
  rcases hab with h1 | ⟨h1, h1t⟩
  · rcases hbc with h2 | ⟨h2, _⟩
    · exact Or.inl (lt_trans h2 h1)
    · exact Or.inl (h2 ▸ h1)
  · rcases hbc with h2 | ⟨h2, h2t⟩
    · exact Or.inl (h1 ▸ h2)
    · exact Or.inr ⟨h1.trans h2, le_trans h2t h1t⟩

/-- The FROM and WHERE part of getUserRecommendations: recommendations
INNER JOIN business_profiles ON businessId = business id, WHERE the
userId matches. -/
def recommendationJoin (db : DB) (userId : String) :
    List (Recommendation × BusinessProfile) :=
  (db.recommendations.filter fun r => r.userId == userId).flatMap
    (fun r => (db.businessProfiles.filter fun b => b.id == r.businessId).map
      (fun b => (r, b)))

/-- DatabaseStorage.getUserRecommendations (src/unnamed/part_001 lines
512-532): recommendations INNER JOIN business_profiles on businessId,
WHERE userId matches, ORDER BY score DESC then createdAt DESC, LIMIT. -/
def getUserRecommendations (db : DB) (userId : String) (limit : Nat) :
    List (Recommendation × BusinessProfile) :=
  (List.insertionSort recOrder (recommendationJoin db userId)).take limit

/-- DatabaseStorage.markRecommendationAsViewed (src/unnamed/part_001 lines
534-540): UPDATE setting isViewed to true, scoped to the id and the owning
userId; the boolean is rowCount greater than zero. -/
def markRecommendationAsViewed (db : DB) (id : Nat) (userId : String) :
    DB × Bool :=
  let matched := fun (r : Recommendation) => r.id == id && r.userId == userId
  let rowCount := (db.recommendations.filter matched).length
  ({ db with recommendations := (db.recommendations.map
      fun r => if matched r then { r with isViewed := true } else r) },
   decide (0 < rowCount))

/-! Validation layer.  The insert schemas are zod objects derived by
drizzle-zod from the table declarations (src/shared/schema.ts lines
106-131).  A zod object in its default mode checks the declared keys and
silently strips unknown keys; parse throws on a declared key of the wrong
type or a missing required key.  Parsing is modelled as Except with the
thrown message. -/

/-- A required string column: present and a string, else a parse error. -/
def reqStr (fieldName : String) (v : Option JVal) : Except String String :=
  match v with
  | some (JVal.str s) => Except.ok s
  | some _ => Except.error (fieldName ++ ": expected string")
  | none => Except.error (fieldName ++ ": required")

/-- An optional nullable string column: absent or null becomes none. -/
def optStr (fieldName : String) (v : Option JVal) :
    Except String (Option String) :=
  match v with
  | none => Except.ok none
  | some JVal.null => Except.ok none
  | some (JVal.str s) => Except.ok (some s)
  | some _ => Except.error (fieldName ++ ": expected string")

/-- An optional nullable boolean column: absent or null becomes none. -/
def optBool (fieldName : String) (v : Option JVal) :
    Except String (Option Bool) :=
  match v with
  | none => Except.ok none
  | some JVal.null => Except.ok none
  | some (JVal.bool b) => Except.ok (some b)
  | some _ => Except.error (fieldName ++ ": expected boolean")

/-- An optional jsonb column: any JSON value is accepted, null becomes
none. -/
def optJson (v : Option JVal) : Except String (Option JVal) :=
  match v with
  | none => Except.ok none
  | some JVal.null => Except.ok none
  | some j => Except.ok (some j)

/-- businessProfileInsertSchema.parse (src/shared/schema.ts lines 106-110):
userId and businessName are required strings, the remaining columns are
optional; keys outside the schema are stripped, per the zod object
default. -/
def businessProfileInsertParse (body : Body) :
    Except String InsertBusinessProfile := do
  let userId ← reqStr "userId" (body.lookup "userId")
  let businessName ← reqStr "businessName" (body.lookup "businessName")
  let category ← optStr "category" (body.lookup "category")
  let description ← optStr "description" (body.lookup "description")
  let location ← optStr "location" (body.lookup "location")
  let contactEmail ← optStr "contactEmail" (body.lookup "contactEmail")
  let contactPhone ← optStr "contactPhone" (body.lookup "contactPhone")
  let website ← optStr "website" (body.lookup "website")
  let socialLinks ← optJson (body.lookup "socialLinks")
  let operatingHours ← optJson (body.lookup "operatingHours")
  let isActive ← optBool "isActive" (body.lookup "isActive")
  Except.ok
    { userId, businessName, category, description, location, contactEmail
      contactPhone, website, socialLinks, operatingHours, isActive }

/-- Modelled from the spec: weightEntryInsertSchema is imported by
src/server/routes.ts but its schema file is not under src.  Per spec
section 3 a weight entry carries a weight value, unit, entry type and
optional photo path and notes; userId, weight and unit are required,
entryType, photoPath and notes optional.  Unknown keys are stripped, as in
the sibling zod schemas of src/shared/schema.ts. -/
def weightEntryInsertParse (body : Body) :
    Except String InsertWeightEntry := do
  let userId ← reqStr "userId" (body.lookup "userId")
  let weight ← reqStr "weight" (body.lookup "weight")
  let unit ← reqStr "unit" (body.lookup "unit")
  let entryType ← optStr "entryType" (body.lookup "entryType")
  let photoPath ← optStr "photoPath" (body.lookup "photoPath")
  let notes ← optStr "notes" (body.lookup "notes")
  Except.ok { userId, weight, unit, entryType, photoPath, notes }

/-- The JavaScript object spread in the handlers, setting or overriding
one key of the request body. -/
def setKey (body : Body) (k : String) (v : JVal) : Body :=
  (k, v) :: body.filter (fun kv => kv.1 ≠ k)

/-! Route handlers.  Each handler runs inside a try/catch; the storage
layer either serves every call (ok) or raises an error with a message at
the first storage call (err), which lands in the catch branch.  Responses
carry the HTTP status and the JSON body actually sent. -/

/-- Whether the storage layer serves this request or raises. -/
inductive StorageOutcome where
  | ok
  | err (msg : String)
deriving DecidableEq, Repr

/-- The JSON bodies the modelled handlers send. -/
inductive RespBody where
  | msg (s : String)
  | success
  | weightEntryBody (e : WeightEntry)
  | businessProfileBody (p : BusinessProfile)
  | uploadBody (e : WeightEntry) (detectedWeight : ℚ) (photoPath : String)
      (m : String)
deriving DecidableEq, Repr

/-- An HTTP response: status code and JSON body. -/
structure Response where
  status : Nat
  body : RespBody
deriving DecidableEq, Repr

/-- mockOCRProcessing (src/server/routes.ts lines 34-37): ignores the
image, draws r in the unit interval, scales into 100..250 and formats to
one decimal place.  toFixed(1) followed by parseFloat is rounding to the
nearest tenth, halves away from zero; on the positive values here that is
the floor of ten times the value plus one half, divided by ten. -/
def mockOCRProcessing (r : ℚ) : ℚ :=
  ((round ((r * 150 + 100) * 10) : ℤ) : ℚ) / 10

/-- POST /api/weight-entries (src/server/routes.ts lines 59-82): validate
the body with the caller's userId spread in, insert the entry, append one
weight_entry activity log, echo the row; the single catch answers 400 with
the thrown message, falling back to a generic one when that message is
empty (error.message with a generic alternative). -/
def postWeightEntries (db : DB) (userId : String) (body : Body)
    (outcome : StorageOutcome) (now : Nat) : DB × Response :=
  match weightEntryInsertParse (setKey body "userId" (JVal.str userId)) with
  | Except.error m =>
    (db, ⟨400, RespBody.msg
      (if m.isEmpty then "Failed to create weight entry" else m)⟩)
  | Except.ok validatedData =>
    match outcome with
    | StorageOutcome.err m =>
      (db, ⟨400, RespBody.msg
        (if m.isEmpty then "Failed to create weight entry" else m)⟩)
    | StorageOutcome.ok =>
      let (db1, weightEntry) := createWeightEntry db validatedData now
      let (db2, _) := createActivityLog db1
        { userId := userId
          action := "weight_entry"
          description := some ("Manually added weight: " ++
            weightEntry.weight ++ " " ++ weightEntry.unit)
          metadata := some [("entryId", JVal.int (Int.ofNat weightEntry.id)),
            ("entryType", JVal.str "manual")] } now
      (db2, ⟨200, RespBody.weightEntryBody weightEntry⟩)

/-- DELETE /api/weight-entries/:id (src/server/routes.ts lines 96-125):
fetch the entry scoped to the caller, 404 when absent, otherwise delete
it, append one weight_delete activity log and answer 200; the catch
answers 500 with a generic message. -/
def deleteWeightEntryRoute (db : DB) (userId : String) (entryId : Nat)
    (outcome : StorageOutcome) (now : Nat) : DB × Response :=
  match outcome with
  | StorageOutcome.err _ =>
    (db, ⟨500, RespBody.msg "Failed to delete weight entry"⟩)
  | StorageOutcome.ok =>
    match getWeightEntry db entryId userId with
    | none => (db, ⟨404, RespBody.msg "Weight entry not found"⟩)
    | some entry =>
      let (db1, deleted) := deleteWeightEntry db entryId userId
      if deleted then
        let (db2, _) := createActivityLog db1
          { userId := userId
            action := "weight_delete"
            description := some ("Deleted weight entry: " ++ entry.weight ++
              " " ++ entry.unit)
            metadata := some [("entryId", JVal.int (Int.ofNat entryId)),
              ("deletedWeight", JVal.str entry.weight),
              ("deletedUnit", JVal.str entry.unit)] } now
        (db2, ⟨200, RespBody.msg "Weight entry deleted successfully"⟩)
      else (db1, ⟨404, RespBody.msg "Weight entry not found"⟩)

/-- POST /api/upload-weight-photo (src/server/routes.ts lines 128-172):
400 when no file arrived; otherwise run the mock detector, insert a photo
weight entry, append one photo_upload activity log, answer 200 with the
detection result; the catch answers 500 with the thrown message, falling
back to a generic one when that message is empty (error.message with a
generic alternative). -/
def uploadWeightPhoto (db : DB) (userId : String) (file : Option String)
    (r : ℚ) (outcome : StorageOutcome) (now : Nat) : DB × Response :=
  match file with
  | none => (db, ⟨400, RespBody.msg "No file uploaded"⟩)
  | some filename =>
    match outcome with
    | StorageOutcome.err m =>
      (db, ⟨500, RespBody.msg
        (if m.isEmpty then "Failed to process photo upload" else m)⟩)
    | StorageOutcome.ok =>
      let detectedWeight := mockOCRProcessing r
      let photoPath := "/uploads/" ++ filename
      let (db1, weightEntry) := createWeightEntry db
        { userId := userId
          weight := toString detectedWeight
          unit := "lbs"
          entryType := some "photo"
          photoPath := some photoPath
          notes := none } now
      let (db2, _) := createActivityLog db1
        { userId := userId
          action := "photo_upload"
          description := some ("Uploaded scale photo and detected weight: "
            ++ toString detectedWeight ++ " lbs")
          metadata := some [("entryId", JVal.int (Int.ofNat weightEntry.id)),
            ("photoPath", JVal.str photoPath),
            ("detectedWeight", JVal.rat detectedWeight),
            ("entryType", JVal.str "photo")] } now
      (db2, ⟨200, RespBody.uploadBody weightEntry detectedWeight photoPath
        "Photo uploaded and weight detected successfully"⟩)

/-- POST /api/business-profile (src/unnamed/part_001 lines 61-84):
validate with the caller's userId spread in, insert the profile, append
one create_business_profile activity log, echo the row; the single catch
answers 400 with the fixed message "Invalid business profile data" for
every failure. -/
def postBusinessProfile (db : DB) (userId : String) (body : Body)
    (outcome : StorageOutcome) (now : Nat) : DB × Response :=
  match businessProfileInsertParse (setKey body "userId" (JVal.str userId))
      with
  | Except.error _ => (db, ⟨400, RespBody.msg "Invalid business profile data"⟩)
  | Except.ok validatedData =>
    match outcome with
    | StorageOutcome.err _ =>
      (db, ⟨400, RespBody.msg "Invalid business profile data"⟩)
    | StorageOutcome.ok =>
      let (db1, businessProfile) := createBusinessProfile db validatedData now
      let (db2, _) := createActivityLog db1
        { userId := userId
          action := "create_business_profile"
          description := some ("Business profile created: " ++
            businessProfile.businessName)
          metadata := some [("businessId",
              JVal.int (Int.ofNat businessProfile.id)),
            ("category", match businessProfile.category with
              | some c => JVal.str c
              | none => JVal.null)] } now
      (db2, ⟨200, RespBody.businessProfileBody businessProfile⟩)

/-- POST /api/recommendations/:id/viewed (src/unnamed/part_001 lines
277-292): mark the recommendation viewed scoped to the caller, 404 when
no row matched, success true otherwise; the catch answers 500 with a
generic message. -/
def postRecommendationViewed (db : DB) (userId : String)
    (recommendationId : Nat) (outcome : StorageOutcome) : DB × Response :=
  match outcome with
  | StorageOutcome.err _ =>
    (db, ⟨500, RespBody.msg "Failed to update recommendation"⟩)
  | StorageOutcome.ok =>
    let (db1, updated) := markRecommendationAsViewed db recommendationId userId
    if updated then (db1, ⟨200, RespBody.success⟩)
    else (db1, ⟨404, RespBody.msg "Recommendation not found"⟩)

/-! Shared helper lemmas and concrete fixtures. -/

/-- Mapping a function that fixes every member of a list is the
identity. -/
theorem list_map_id_of {α : Type} (l : List α) (f : α → α)
    (h : ∀ a ∈ l, f a = a) : l.map f = l := by
  induction l with
  | nil => rfl
  | cons x xs ih =>
    simp only [List.map_cons, h x (List.mem_cons_self x xs)]
    rw [ih fun a ha => h a (List.mem_cons_of_mem x ha)]

/-- An ownership check against a row of another user is false. -/
theorem owner_check_false (rid : Nat) (ruid : String)
    (id : Nat) (U1 U2 : String) (hne : U1 ≠ U2)
    (hown : rid = id → ruid = U2) :
    (rid == id && ruid == U1) = false := by
  by_cases h : rid = id
  · rw [hown h]
    simp only [Bool.and_eq_false_iff, beq_eq_false_iff_ne, ne_eq]
    exact Or.inr fun hh => hne hh.symm
  · simp [h]

/-- A patch that touches nothing. -/
def emptyPatch : BusinessProfilePatch :=
  { userId := none, businessName := none, category := none,
    description := none, location := none, contactEmail := none,
    contactPhone := none, website := none, socialLinks := none,
    operatingHours := none, isActive := none }

/-- A fixture weight entry owned by user u2. -/
def entryU2 : WeightEntry :=
  { id := 1, userId := "u2", weight := "180.5", unit := "lbs",
    entryType := "manual", photoPath := none, notes := none,
    recordedAt := 3 }

/-- A fixture business profile owned by user u2. -/
def profileU2 : BusinessProfile :=
  { id := 1, userId := "u2", businessName := "Cafe Aroma",
    category := some "cafe", description := none, location := none,
    contactEmail := none, contactPhone := none, website := none,
    socialLinks := none, operatingHours := none, isActive := true,
    createdAt := 1, updatedAt := 1 }

/-- A fixture recommendation owned by user u2. -/
def recU2 : Recommendation :=
  { id := 1, userId := "u2", businessId := 1,
    recommendationType := "preference", score := 87, reason := none,
    isViewed := false, createdAt := 2 }

/-- A fixture database whose single weight entry, business profile and
recommendation all belong to user u2. -/
def db1 : DB :=
  { users := [], weightEntries := [entryU2],
    businessProfiles := [profileU2], customerPreferences := [],
    businessReviews := [], recommendations := [recU2],
    activityLogs := [] }

/-- C1: for users U1 and U2 with U1 different from U2, U1 cannot read,
update or delete rows of U2: when every weight entry with the given id
belongs to U2, getWeightEntry returns none and deleteWeightEntry returns
false leaving the database unchanged; when every business profile with
the given id belongs to U2, updateBusinessProfile returns none and
changes nothing; when every recommendation with the given id belongs to
U2, markRecommendationAsViewed returns false and changes nothing. -/
theorem cross_user_isolation (db : DB) (U1 U2 : String) (hne : U1 ≠ U2)
    (eid pid rid : Nat) (patch : BusinessProfilePatch) (now : Nat)
    (he : ∀ e ∈ db.weightEntries, e.id = eid → e.userId = U2)
    (hp : ∀ p ∈ db.businessProfiles, p.id = pid → p.userId = U2)
    (hr : ∀ r ∈ db.recommendations, r.id = rid → r.userId = U2) :
    getWeightEntry db eid U1 = none ∧
    deleteWeightEntry db eid U1 = (db, false) ∧
    updateBusinessProfile db pid U1 patch now = (db, none) ∧
    markRecommendationAsViewed db rid U1 = (db, false) := by
  have hef : ∀ e ∈ db.weightEntries,
      (e.id == eid && e.userId == U1) = false :=
    fun e hme => owner_check_false e.id e.userId eid U1 U2 hne (he e hme)
  have hpf : ∀ p ∈ db.businessProfiles,
      (p.id == pid && p.userId == U1) = false :=
    fun p hmp => owner_check_false p.id p.userId pid U1 U2 hne (hp p hmp)
  have hrf : ∀ r ∈ db.recommendations,
      (r.id == rid && r.userId == U1) = false :=
    fun r hmr => owner_check_false r.id r.userId rid U1 U2 hne (hr r hmr)
  have heNil : (db.weightEntries.filter
      fun e => e.id == eid && e.userId == U1) = [] :=
    List.filter_eq_nil_iff.mpr (by simpa using hef)
  have hpNil : (db.businessProfiles.filter
      fun p => p.id == pid && p.userId == U1) = [] :=
    List.filter_eq_nil_iff.mpr (by simpa using hpf)
  have hrNil : (db.recommendations.filter
      fun r => r.id == rid && r.userId == U1) = [] :=
    List.filter_eq_nil_iff.mpr (by simpa using hrf)
  refine ⟨?_, ?_, ?_, ?_⟩
  · rw [getWeightEntry, heNil]
    rfl
  · rw [deleteWeightEntry]
    have hkeep : (db.weightEntries.filter
        fun e => !(e.id == eid && e.userId == U1)) = db.weightEntries := by
      apply List.filter_eq_self.mpr
      intro e hme
      rw [hef e hme]
      rfl
    rw [heNil, hkeep]
    rfl
  · rw [updateBusinessProfile]
    have hmap : (db.businessProfiles.map fun p =>
        if p.id == pid && p.userId == U1 then applyPatch p patch now
        else p) = db.businessProfiles := by
      apply list_map_id_of
      intro p hmp
      rw [hpf p hmp]
      rfl
    rw [hpNil, hmap]
    rfl
  · rw [markRecommendationAsViewed]
    have hmap : (db.recommendations.map fun r =>
        if r.id == rid && r.userId == U1 then { r with isViewed := true }
        else r) = db.recommendations := by
      apply list_map_id_of
      intro r hmr
      rw [hrf r hmr]
      rfl
    rw [hrNil, hmap]
    rfl

/-- Witness for C1 at a concrete database owned by u2 and caller u1. -/
theorem cross_user_isolation_witness :
    getWeightEntry db1 1 "u1" = none ∧
    deleteWeightEntry db1 1 "u1" = (db1, false) ∧
    updateBusinessProfile db1 1 "u1" emptyPatch 7 = (db1, none) ∧
    markRecommendationAsViewed db1 1 "u1" = (db1, false) :=
  cross_user_isolation db1 "u1" "u2" (by decide) 1 1 1 emptyPatch 7
    (by decide) (by decide) (by decide)

/-- An ownership check is false when any row with the id is not the
caller's. -/
theorem not_owner_check_false (rid : Nat) (ruid : String) (id : Nat)
    (u : String) (hown : rid = id → ruid ≠ u) :
    (rid == id && ruid == u) = false := by
  by_cases h : rid = id
  · simp only [Bool.and_eq_false_iff, beq_eq_false_iff_ne, ne_eq]
    exact Or.inr (hown h)
  · simp [h]

/-- C2: for every authenticated caller and weight-entry id, when no
weight entry with that id belongs to the caller (in particular when none
exists at all), DELETE /api/weight-entries/:id answers 404 and the
database, hence every entry row and the activity log, is unchanged. -/
theorem delete_foreign_entry_404 (db : DB) (u : String) (eid : Nat)
    (now : Nat) (h : ∀ e ∈ db.weightEntries, e.id = eid → e.userId ≠ u) :
    deleteWeightEntryRoute db u eid StorageOutcome.ok now =
      (db, ⟨404, RespBody.msg "Weight entry not found"⟩) := by
  have hf : ∀ e ∈ db.weightEntries,
      (e.id == eid && e.userId == u) = false :=
    fun e hme => not_owner_check_false e.id e.userId eid u (h e hme)
  have hNil : (db.weightEntries.filter
      fun e => e.id == eid && e.userId == u) = [] :=
    List.filter_eq_nil_iff.mpr (by simpa using hf)
  rw [deleteWeightEntryRoute]
  have hget : getWeightEntry db eid u = none := by
    rw [getWeightEntry, hNil]
    rfl
  rw [hget]

/-- Witness for C2: user u1 asks to delete the entry of user u2. -/
theorem delete_foreign_entry_404_witness :
    deleteWeightEntryRoute db1 "u1" 1 StorageOutcome.ok 9 =
      (db1, ⟨404, RespBody.msg "Weight entry not found"⟩) :=
  delete_foreign_entry_404 db1 "u1" 1 9 (by decide)

/-- Setting isViewed on an already viewed recommendation is the
identity. -/
theorem setViewed_already (r : Recommendation) (h : r.isViewed = true) :
    { r with isViewed := true } = r := by
  cases r
  simp_all

/-- C5: when some recommendation with the given id belongs to the calling
user and every such row is already viewed, markRecommendationAsViewed
leaves the database identical and returns true, and the viewed route still
answers 200 with success true. -/
theorem mark_viewed_idempotent (db : DB) (id : Nat) (u : String)
    (hex : ∃ r ∈ db.recommendations, r.id = id ∧ r.userId = u)
    (hviewed : ∀ r ∈ db.recommendations,
      r.id = id → r.userId = u → r.isViewed = true) :
    markRecommendationAsViewed db id u = (db, true) ∧
    postRecommendationViewed db u id StorageOutcome.ok =
      (db, ⟨200, RespBody.success⟩) := by
  have hmap : (db.recommendations.map fun r =>
      if r.id == id && r.userId == u then { r with isViewed := true }
      else r) = db.recommendations := by
    apply list_map_id_of
    intro r hmr
    by_cases hc : (r.id == id && r.userId == u) = true
    · have hprops := hc
      simp only [Bool.and_eq_true, beq_iff_eq] at hprops
      rw [if_pos hc, setViewed_already r (hviewed r hmr hprops.1 hprops.2)]
    · rw [if_neg hc]
  have hpos : 0 < (db.recommendations.filter
      fun r => r.id == id && r.userId == u).length := by
    obtain ⟨r, hmr, hid, huid⟩ := hex
    have : r ∈ db.recommendations.filter
        fun r => r.id == id && r.userId == u :=
      List.mem_filter.mpr ⟨hmr, by simp [hid, huid]⟩
    exact List.length_pos.mpr (List.ne_nil_of_mem this)
  have hmark : markRecommendationAsViewed db id u = (db, true) := by
    rw [markRecommendationAsViewed]
    rw [hmap]
    rw [decide_eq_true hpos]
  refine ⟨hmark, ?_⟩
  rw [postRecommendationViewed, hmark]
  rfl

/-- A fixture database holding one already-viewed recommendation of
user u2. -/
def db2 : DB :=
  { users := [], weightEntries := [], businessProfiles := [profileU2],
    customerPreferences := [], businessReviews := [],
    recommendations := [{ recU2 with isViewed := true }],
    activityLogs := [] }

/-- Witness for C5: marking the already-viewed recommendation again. -/
theorem mark_viewed_idempotent_witness :
    markRecommendationAsViewed db2 1 "u2" = (db2, true) ∧
    postRecommendationViewed db2 "u2" 1 StorageOutcome.ok =
      (db2, ⟨200, RespBody.success⟩) :=
  mark_viewed_idempotent db2 1 "u2"
    ⟨{ recU2 with isViewed := true }, by decide⟩ (by decide)

/-- C10: markRecommendationAsViewed touches nothing but the isViewed
field of the matched rows: every other table is unchanged, and row by row
every field except isViewed is preserved, an unmatched row being
preserved entirely. -/
theorem mark_viewed_frame (db : DB) (id : Nat) (u : String) :
    (markRecommendationAsViewed db id u).1.users = db.users ∧
    (markRecommendationAsViewed db id u).1.weightEntries =
      db.weightEntries ∧
    (markRecommendationAsViewed db id u).1.businessProfiles =
      db.businessProfiles ∧
    (markRecommendationAsViewed db id u).1.customerPreferences =
      db.customerPreferences ∧
    (markRecommendationAsViewed db id u).1.businessReviews =
      db.businessReviews ∧
    (markRecommendationAsViewed db id u).1.activityLogs =
      db.activityLogs ∧
    List.Forall₂ (fun r r2 =>
        r2.id = r.id ∧ r2.userId = r.userId ∧
        r2.businessId = r.businessId ∧
        r2.recommendationType = r.recommendationType ∧
        r2.score = r.score ∧ r2.reason = r.reason ∧
        r2.createdAt = r.createdAt ∧
        (¬(r.id = id ∧ r.userId = u) → r2 = r))
      db.recommendations (markRecommendationAsViewed db id u).1.recommendations := by
  refine ⟨rfl, rfl, rfl, rfl, rfl, rfl, ?_⟩
  have : (markRecommendationAsViewed db id u).1.recommendations =
      (db.recommendations.map fun r =>
        if r.id == id && r.userId == u then { r with isViewed := true }
        else r) := rfl
  rw [this, List.forall₂_map_right_iff, List.forall₂_same]
  intro r _
  by_cases hc : (r.id == id && r.userId == u) = true
  · have hprops := hc
    simp only [Bool.and_eq_true, beq_iff_eq] at hprops
    rw [if_pos hc]
    exact ⟨rfl, rfl, rfl, rfl, rfl, rfl, rfl,
      fun hn => absurd hprops hn⟩
  · rw [if_neg hc]
    exact ⟨rfl, rfl, rfl, rfl, rfl, rfl, rfl, fun _ => rfl⟩

/-- Witness for C10 at the fixture database and its matched row. -/
theorem mark_viewed_frame_witness :
    (markRecommendationAsViewed db1 1 "u2").1.users = db1.users ∧
    (markRecommendationAsViewed db1 1 "u2").1.weightEntries =
      db1.weightEntries ∧
    (markRecommendationAsViewed db1 1 "u2").1.businessProfiles =
      db1.businessProfiles ∧
    (markRecommendationAsViewed db1 1 "u2").1.customerPreferences =
      db1.customerPreferences ∧
    (markRecommendationAsViewed db1 1 "u2").1.businessReviews =
      db1.businessReviews ∧
    (markRecommendationAsViewed db1 1 "u2").1.activityLogs =
      db1.activityLogs ∧
    List.Forall₂ (fun r r2 =>
        r2.id = r.id ∧ r2.userId = r.userId ∧
        r2.businessId = r.businessId ∧
        r2.recommendationType = r.recommendationType ∧
        r2.score = r.score ∧ r2.reason = r.reason ∧
        r2.createdAt = r.createdAt ∧
        (¬(r.id = 1 ∧ r.userId = "u2") → r2 = r))
      db1.recommendations
      (markRecommendationAsViewed db1 1 "u2").1.recommendations :=
  mark_viewed_frame db1 1 "u2"

/-- C4: getUserRecommendations returns only rows of the given user, each
paired with the business whose id the recommendation references, sorted
by score descending with ties broken by most-recent creation time, and
holds at most limit elements. -/
theorem recommendations_listing (db : DB) (u : String) (limit : Nat) :
    (∀ x ∈ getUserRecommendations db u limit,
      x.1.userId = u ∧ x.2.id = x.1.businessId) ∧
    List.Sorted recOrder (getUserRecommendations db u limit) ∧
    (getUserRecommendations db u limit).length ≤ limit := by
  refine ⟨?_, ?_, ?_⟩
  · intro x hx
    have hx1 : x ∈ List.insertionSort recOrder (recommendationJoin db u) :=
      List.take_subset _ _ hx
    have hx2 : x ∈ recommendationJoin db u :=
      (List.perm_insertionSort recOrder (recommendationJoin db u)).mem_iff.mp
        hx1
    rw [recommendationJoin] at hx2
    obtain ⟨r, hr, hxm⟩ := List.mem_flatMap.mp hx2
    obtain ⟨b, hb, rfl⟩ := List.mem_map.mp hxm
    refine ⟨?_, ?_⟩
    · have := (List.mem_filter.mp hr).2
      simpa using this
    · have := (List.mem_filter.mp hb).2
      simpa using this
  · exact List.Pairwise.sublist (List.take_sublist _ _)
      (List.sorted_insertionSort recOrder (recommendationJoin db u))
  · rw [getUserRecommendations]
    exact List.length_take_le _ _

/-- Witness for C4 at the fixture database. -/
theorem recommendations_listing_witness :
    (∀ x ∈ getUserRecommendations db1 "u2" 10,
      x.1.userId = "u2" ∧ x.2.id = x.1.businessId) ∧
    List.Sorted recOrder (getUserRecommendations db1 "u2" 10) ∧
    (getUserRecommendations db1 "u2" 10).length ≤ 10 :=
  recommendations_listing db1 "u2" 10

/-- C9: searchBusinesses and getAllBusinesses return only business
profiles whose isActive flag is true, so an inactive profile never
appears in public search or listing results, and search results are
ordered by business name. -/
theorem public_listing_active_only (db : DB) (q : String)
    (cat : Option String) (limit : Nat) :
    (∀ b ∈ searchBusinesses db q cat, b.isActive = true) ∧
    (∀ b ∈ getAllBusinesses db limit, b.isActive = true) ∧
    List.Sorted nameLe (searchBusinesses db q cat) := by
  refine ⟨?_, ?_, ?_⟩
  · intro b hb
    rw [searchBusinesses] at hb
    have hb2 := (List.perm_insertionSort nameLe _).mem_iff.mp hb
    have hcl := (List.mem_filter.mp hb2).2
    cases cat with
    | none =>
      simp only [Bool.and_eq_true] at hcl
      exact hcl.1
    | some c =>
      simp only [Bool.and_eq_true] at hcl
      exact hcl.1.1
  · intro b hb
    rw [getAllBusinesses] at hb
    have hb1 := List.take_subset _ _ hb
    have hb2 := (List.perm_insertionSort createdDescBP _).mem_iff.mp hb1
    exact (List.mem_filter.mp hb2).2
  · rw [searchBusinesses]
    exact List.sorted_insertionSort nameLe _

/-- Witness for C9 at the fixture database. -/
theorem public_listing_active_only_witness :
    (∀ b ∈ searchBusinesses db1 "Cafe" none, b.isActive = true) ∧
    (∀ b ∈ getAllBusinesses db1 50, b.isActive = true) ∧
    List.Sorted nameLe (searchBusinesses db1 "Cafe" none) :=
  public_listing_active_only db1 "Cafe" none 50

/-- C8: for every draw r of the pseudo-random source with 0 ≤ r < 1, the
mock detector returns r scaled into the plausible range and rounded to
one decimal place: the result lies between 100 and 250 and ten times the
result is an integer. -/
theorem mock_ocr_plausible (r : ℚ) (h0 : 0 ≤ r) (h1 : r < 1) :
    100 ≤ mockOCRProcessing r ∧ mockOCRProcessing r ≤ 250 ∧
    (mockOCRProcessing r * 10).den = 1 := by
  have hx0 : (1000 : ℚ) ≤ (r * 150 + 100) * 10 := by nlinarith
  have hx1 : (r * 150 + 100) * 10 < 2500 := by nlinarith
  have hlo : (1000 : ℤ) ≤ round ((r * 150 + 100) * 10) := by
    rw [round_eq]
    refine Int.le_floor.mpr ?_
    push_cast
    linarith
  have hhi : round ((r * 150 + 100) * 10) ≤ 2500 := by
    rw [round_eq]
    have h2 : (⌊(r * 150 + 100) * 10 + 1 / 2⌋ : ℤ) < 2501 := by
      refine Int.floor_lt.mpr ?_
      push_cast
      linarith
    omega
  have hloQ : (1000 : ℚ) ≤ ((round ((r * 150 + 100) * 10) : ℤ) : ℚ) := by
    exact_mod_cast hlo
  have hhiQ : ((round ((r * 150 + 100) * 10) : ℤ) : ℚ) ≤ 2500 := by
    exact_mod_cast hhi
  refine ⟨?_, ?_, ?_⟩
  · rw [mockOCRProcessing]
    rw [le_div_iff₀ (by norm_num : (0 : ℚ) < 10)]
    linarith
  · rw [mockOCRProcessing]
    rw [div_le_iff₀ (by norm_num : (0 : ℚ) < 10)]
    linarith
  · rw [mockOCRProcessing]
    rw [div_mul_cancel₀ _ (by norm_num : (10 : ℚ) ≠ 0)]
    exact Rat.den_intCast _

/-- Witness for C8 at the draw one half, whose reading is 175.0. -/
theorem mock_ocr_plausible_witness :
    100 ≤ mockOCRProcessing (1 / 2) ∧ mockOCRProcessing (1 / 2) ≤ 250 ∧
    (mockOCRProcessing (1 / 2) * 10).den = 1 :=
  mock_ocr_plausible (1 / 2) (by norm_num) (by norm_num)

/-- C3: each of the three weight mutations appends exactly one
activity-log row for the calling user when it succeeds, with actions
weight_entry, photo_upload and weight_delete respectively, and appends
none when it fails before its storage write: on a validation failure, a
missing file, a missing or foreign entry, or a storage error raised at
the first storage call. -/
theorem activity_log_per_mutation (db : DB) (u : String) (body : Body)
    (eid : Nat) (r : ℚ) (f : String) (m : String) (now : Nat) :
    (∀ d, weightEntryInsertParse (setKey body "userId" (JVal.str u)) =
        Except.ok d →
      ∃ log,
        (postWeightEntries db u body StorageOutcome.ok now).1.activityLogs =
          db.activityLogs ++ [log] ∧
        log.action = "weight_entry" ∧ log.userId = u) ∧
    (∀ m2, weightEntryInsertParse (setKey body "userId" (JVal.str u)) =
        Except.error m2 →
      (postWeightEntries db u body StorageOutcome.ok now).1 = db) ∧
    ((postWeightEntries db u body (StorageOutcome.err m) now).1 = db) ∧
    ((uploadWeightPhoto db u none r StorageOutcome.ok now).1 = db) ∧
    (∃ log,
      (uploadWeightPhoto db u (some f) r StorageOutcome.ok now).1.activityLogs
          = db.activityLogs ++ [log] ∧
      log.action = "photo_upload" ∧ log.userId = u) ∧
    ((uploadWeightPhoto db u (some f) r (StorageOutcome.err m) now).1 = db) ∧
    (∀ entry, getWeightEntry db eid u = some entry →
      ∃ log,
        (deleteWeightEntryRoute db u eid StorageOutcome.ok now).1.activityLogs
            = db.activityLogs ++ [log] ∧
        log.action = "weight_delete" ∧ log.userId = u) ∧
    (getWeightEntry db eid u = none →
      (deleteWeightEntryRoute db u eid StorageOutcome.ok now).1 = db) ∧
    ((deleteWeightEntryRoute db u eid (StorageOutcome.err m) now).1 = db) := by
  refine ⟨?_, ?_, ?_, ?_, ?_, ?_, ?_, ?_, ?_⟩
  · intro d hd
    simp only [postWeightEntries, hd, createWeightEntry, createActivityLog]
    exact ⟨_, rfl, rfl, rfl⟩
  · intro m2 hm2
    simp only [postWeightEntries, hm2]
  · cases hp : weightEntryInsertParse (setKey body "userId" (JVal.str u))
        with
    | error m2 => simp only [postWeightEntries, hp]
    | ok d => simp only [postWeightEntries, hp]
  · rfl
  · simp only [uploadWeightPhoto, createWeightEntry, createActivityLog]
    exact ⟨_, rfl, rfl, rfl⟩
  · rfl
  · intro entry hent
    have hpos : 0 < (db.weightEntries.filter
        fun e => e.id == eid && e.userId == u).length := by
      rw [getWeightEntry] at hent
      rcases hf : db.weightEntries.filter
          fun e => e.id == eid && e.userId == u with _ | ⟨a, t⟩
      · rw [hf] at hent
        simp at hent
      · rw [hf]
        simp
    simp only [deleteWeightEntryRoute, hent, deleteWeightEntry,
      decide_eq_true hpos, if_true, createActivityLog]
    exact ⟨_, rfl, rfl, rfl⟩
  · intro hnone
    simp only [deleteWeightEntryRoute, hnone]
  · rfl

/-- A valid manual weight-entry body. -/
def weightBody : Body :=
  [("weight", JVal.str "150.5"), ("unit", JVal.str "lbs")]

/-- The parse result of weightBody for user u2. -/
def weightData : InsertWeightEntry :=
  { userId := "u2", weight := "150.5", unit := "lbs",
    entryType := none, photoPath := none, notes := none }

/-- Witness for C3: on the fixture database, a successful creation,
upload and deletion each append one log of the right action for the
caller, and a creation posted with an empty body appends none. -/
theorem activity_log_per_mutation_witness :
    (∃ log,
      (postWeightEntries db1 "u2" weightBody StorageOutcome.ok 9).1.activityLogs
          = db1.activityLogs ++ [log] ∧
      log.action = "weight_entry" ∧ log.userId = "u2") ∧
    (∃ log,
      (uploadWeightPhoto db1 "u2" (some "scale.jpg") 0
          StorageOutcome.ok 9).1.activityLogs
          = db1.activityLogs ++ [log] ∧
      log.action = "photo_upload" ∧ log.userId = "u2") ∧
    (∃ log,
      (deleteWeightEntryRoute db1 "u2" 1 StorageOutcome.ok 9).1.activityLogs
          = db1.activityLogs ++ [log] ∧
      log.action = "weight_delete" ∧ log.userId = "u2") ∧
    ((postWeightEntries db1 "u2" [] StorageOutcome.ok 9).1 = db1) := by
  have h := activity_log_per_mutation db1 "u2" weightBody 1 0 "scale.jpg"
    "boom" 9
  have h2 := activity_log_per_mutation db1 "u2" [] 1 0 "scale.jpg" "boom" 9
  refine ⟨?_, ?_, ?_, ?_⟩
  · exact h.1 weightData rfl
  · exact h.2.2.2.2.1
  · exact h.2.2.2.2.2.2.1 entryU2 (by decide)
  · exact h2.2.1 "weight: required" rfl

/-- C6 counterexample: in POST /api/weight-entries a database error
raised by the storage call lands in the single catch branch, which
answers 400 echoing the raw error message, not 500 with a generic
message as the claim states. -/
theorem db_error_status_counterexample :
    (postWeightEntries db1 "u1" weightBody
        (StorageOutcome.err "connection terminated") 9).2 =
      ⟨400, RespBody.msg "connection terminated"⟩ ∧
    (postWeightEntries db1 "u1" weightBody
        (StorageOutcome.err "connection terminated") 9).2.status ≠ 500 := by
  constructor
  · rfl
  · have h4 : (postWeightEntries db1 "u1" weightBody
        (StorageOutcome.err "connection terminated") 9).2.status = 400 := rfl
    rw [h4]
    decide

/-- C6 amended: validation failures answer 400 echoing the validation
error, with a generic fallback when the thrown message is empty; storage
errors in DELETE /api/weight-entries/:id and in the viewed route answer
500 with a fixed generic message, and in POST /api/upload-weight-photo
500 echoing the thrown message with the same kind of fallback; but the
creating handlers POST /api/weight-entries and POST /api/business-profile
answer 400 for every failure including database errors, the former
echoing the thrown message with a generic fallback and the latter a
fixed message. -/
theorem error_classes_amended (db : DB) (u : String) (body : Body)
    (eid : Nat) (f : String) (r : ℚ) (now : Nat) (m : String) :
    (∀ m2, weightEntryInsertParse (setKey body "userId" (JVal.str u)) =
        Except.error m2 →
      postWeightEntries db u body StorageOutcome.ok now =
        (db, ⟨400, RespBody.msg
          (if m2.isEmpty then "Failed to create weight entry" else m2)⟩)) ∧
    ((postWeightEntries db u body (StorageOutcome.err m) now).2.status
        = 400) ∧
    ((postBusinessProfile db u body (StorageOutcome.err m) now).2 =
      ⟨400, RespBody.msg "Invalid business profile data"⟩) ∧
    ((deleteWeightEntryRoute db u eid (StorageOutcome.err m) now).2 =
      ⟨500, RespBody.msg "Failed to delete weight entry"⟩) ∧
    ((uploadWeightPhoto db u (some f) r (StorageOutcome.err m) now).2 =
      ⟨500, RespBody.msg
        (if m.isEmpty then "Failed to process photo upload" else m)⟩) ∧
    ((postRecommendationViewed db u eid (StorageOutcome.err m)).2 =
      ⟨500, RespBody.msg "Failed to update recommendation"⟩) := by
  refine ⟨?_, ?_, ?_, ?_, ?_, ?_⟩
  · intro m2 hm2
    simp only [postWeightEntries, hm2]
  · cases hp : weightEntryInsertParse (setKey body "userId" (JVal.str u))
        with
    | error m2 => simp only [postWeightEntries, hp]
    | ok d => simp only [postWeightEntries, hp]
  · cases hp : businessProfileInsertParse (setKey body "userId"
        (JVal.str u)) with
    | error m2 => simp only [postBusinessProfile, hp]
    | ok d => simp only [postBusinessProfile, hp]
  · rfl
  · rfl
  · rfl

/-- Witness for the amended C6 at concrete requests, including a thrown
error with an empty message, where the upload handler falls back to its
generic message. -/
theorem error_classes_amended_witness :
    (postWeightEntries db1 "u2" [] StorageOutcome.ok 9 =
      (db1, ⟨400, RespBody.msg "weight: required"⟩)) ∧
    ((postWeightEntries db1 "u2" weightBody (StorageOutcome.err "boom")
        9).2.status = 400) ∧
    ((postBusinessProfile db1 "u2" [] (StorageOutcome.err "boom") 9).2 =
      ⟨400, RespBody.msg "Invalid business profile data"⟩) ∧
    ((deleteWeightEntryRoute db1 "u2" 1 (StorageOutcome.err "boom") 9).2 =
      ⟨500, RespBody.msg "Failed to delete weight entry"⟩) ∧
    ((uploadWeightPhoto db1 "u2" (some "scale.jpg") 0
        (StorageOutcome.err "boom") 9).2 = ⟨500, RespBody.msg "boom"⟩) ∧
    ((uploadWeightPhoto db1 "u2" (some "scale.jpg") 0
        (StorageOutcome.err "") 9).2 =
      ⟨500, RespBody.msg "Failed to process photo upload"⟩) ∧
    ((postRecommendationViewed db1 "u2" 1 (StorageOutcome.err "boom")).2 =
      ⟨500, RespBody.msg "Failed to update recommendation"⟩) := by
  have h := error_classes_amended db1 "u2" weightBody 1 "scale.jpg" 0 9
    "boom"
  have h2 := error_classes_amended db1 "u2" [] 1 "scale.jpg" 0 9 "boom"
  have h3 := error_classes_amended db1 "u2" weightBody 1 "scale.jpg" 0 9 ""
  exact ⟨h2.1 "weight: required" rfl, h.2.1, h2.2.2.1, h.2.2.2.1,
    h.2.2.2.2.1, h3.2.2.2.2.1, h.2.2.2.2.2⟩

/-- Appending a binding for an unrelated key to the end of an object does
not change any lookup of another key. -/
theorem lookup_append_single {β : Type} (l : List (String × β))
    (d k : String) (v : β) (h : d ≠ k) :
    ((l ++ [(k, v)]).lookup d) = l.lookup d := by
  induction l with
  | nil =>
    simp [List.lookup, beq_eq_false_iff_ne.mpr h]
  | cons x xs ih =>
    rcases x with ⟨xk, xv⟩
    by_cases hx : d == xk
    · simp [List.lookup, hx]
    · simp only [List.cons_append, List.lookup, hx]
      exact ih

/-- The declared keys of businessProfileInsertSchema. -/
def businessProfileKeys : List String :=
  ["userId", "businessName", "category", "description", "location",
   "contactEmail", "contactPhone", "website", "socialLinks",
   "operatingHours", "isActive"]

/-- C7 counterexample: a body carrying an unknown extra field
(favoriteColor) together with valid declared fields is accepted by
POST /api/business-profile with status 200, the extra field silently
dropped, not rejected with 400 as the claim states. -/
theorem extra_field_accepted_counterexample :
    (postBusinessProfile db1 "u1"
        [("businessName", JVal.str "Cafe Aroma"),
         ("favoriteColor", JVal.str "blue")]
        StorageOutcome.ok 9).2.status = 200 ∧
    (postBusinessProfile db1 "u1"
        [("businessName", JVal.str "Cafe Aroma"),
         ("favoriteColor", JVal.str "blue")]
        StorageOutcome.ok 9).2.status ≠ 400 := by
  constructor
  · rfl
  · have h2 : (postBusinessProfile db1 "u1"
        [("businessName", JVal.str "Cafe Aroma"),
         ("favoriteColor", JVal.str "blue")]
        StorageOutcome.ok 9).2.status = 200 := rfl
    rw [h2]
    decide

/-- C7 amended: the insert schemas reject invalid declared fields with a
parse failure, hence 400, but a body containing an unknown extra field is
not rejected: the extra binding is ignored and parsing proceeds exactly
as without it, per the zod object default that strips unknown keys. -/
theorem extra_fields_stripped (body : Body) (k : String) (v : JVal)
    (hk : k ∉ businessProfileKeys) (n : Int) :
    businessProfileInsertParse (body ++ [(k, v)]) =
      businessProfileInsertParse body ∧
    (businessProfileInsertParse
        (setKey body "businessName" (JVal.int n))).isOk = false := by
  constructor
  · have hne : ∀ d ∈ businessProfileKeys, d ≠ k := by
      intro d hd he
      exact hk (he ▸ hd)
    rw [businessProfileInsertParse, businessProfileInsertParse]
    rw [lookup_append_single body "userId" k v (hne _ (by simp [businessProfileKeys]))]
    rw [lookup_append_single body "businessName" k v (hne _ (by simp [businessProfileKeys]))]
    rw [lookup_append_single body "category" k v (hne _ (by simp [businessProfileKeys]))]
    rw [lookup_append_single body "description" k v (hne _ (by simp [businessProfileKeys]))]
    rw [lookup_append_single body "location" k v (hne _ (by simp [businessProfileKeys]))]
    rw [lookup_append_single body "contactEmail" k v (hne _ (by simp [businessProfileKeys]))]
    rw [lookup_append_single body "contactPhone" k v (hne _ (by simp [businessProfileKeys]))]
    rw [lookup_append_single body "website" k v (hne _ (by simp [businessProfileKeys]))]
    rw [lookup_append_single body "socialLinks" k v (hne _ (by simp [businessProfileKeys]))]
    rw [lookup_append_single body "operatingHours" k v (hne _ (by simp [businessProfileKeys]))]
    rw [lookup_append_single body "isActive" k v (hne _ (by simp [businessProfileKeys]))]
  · have hbn : (setKey body "businessName" (JVal.int n)).lookup
        "businessName" = some (JVal.int n) := by
      simp [setKey, List.lookup]
    have hbn2 : reqStr "businessName" ((setKey body "businessName"
        (JVal.int n)).lookup "businessName") =
        Except.error "businessName: expected string" := by
      rw [hbn]
      rfl
    rw [businessProfileInsertParse]
    cases hu : reqStr "userId" ((setKey body "businessName"
        (JVal.int n)).lookup "userId") with
    | error m2 => rfl
    | ok uid =>
      rw [hbn2]
      rfl

/-- Witness for the amended C7: appending favoriteColor to a valid body
leaves the parse result unchanged, and an integer businessName is
rejected. -/
theorem extra_fields_stripped_witness :
    businessProfileInsertParse
        ([("userId", JVal.str "u1"),
          ("businessName", JVal.str "Cafe Aroma")] ++
          [("favoriteColor", JVal.str "blue")]) =
      businessProfileInsertParse
        [("userId", JVal.str "u1"),
         ("businessName", JVal.str "Cafe Aroma")] ∧
    (businessProfileInsertParse
        (setKey [("userId", JVal.str "u1"),
          ("businessName", JVal.str "Cafe Aroma")]
          "businessName" (JVal.int 5))).isOk = false :=
  extra_fields_stripped
    [("userId", JVal.str "u1"), ("businessName", JVal.str "Cafe Aroma")]
    "favoriteColor" (JVal.str "blue") (by decide) 5

end WeightWise
